import Mathlib

/-
Shallow embedding of the DeFi credit scoring pipeline
(src/feature_engineering.py, src/credit_scorer.py).

Modelling conventions:
 - Python/pandas floats are modelled by the rationals ℚ; a pandas value that
   can be NaN is modelled by Option ℚ, with none standing for NaN.
 - pandas Series.std and Series.var use ddof = 1, hence they are NaN on a
   series of fewer than two elements.  Series.std is the square root of
   Series.var; over ℚ we carry the variance as the finite value, since the
   square root does not change finiteness: std is NaN exactly when var is.
 - Division by zero over ℚ follows the Lean convention x / 0 = 0; every
   division in the source is either guarded by the code or irrelevant to the
   claims proved here.
 - The unsupervised components (IsolationForest, KMeans) and the fitted
   RobustScaler parameters are run-time data fitted on the population; they
   enter the embedding as explicit parameters (anomaly flag, cluster label,
   per-feature center and scale), exactly the values the fitted objects
   would supply.
-/

namespace DeFiScoring

/-- Action vocabulary of the canonical transaction table. -/
inductive Action where
  | deposit
  | borrow
  | repay
  | redeemunderlying
  | liquidationcall
  | withdraw
  | flashloan
  | unknown
deriving DecidableEq, Repr

/-- One canonical transaction record, the per-wallet view used by
feature extraction: action, asset symbol, numeric amount, gas estimate and
timestamp (seconds since the epoch). -/
structure Tx where
  wallet : String
  action : Action
  asset : String
  amount : ℚ
  gas_used : ℚ
  timestamp : ℤ
deriving DecidableEq, Repr

/-- Calendar date of a transaction (UTC day index), as pandas dt.date on an
epoch-seconds timestamp: the floor division by 86400. -/
def txDate (t : Tx) : ℤ := Int.fdiv t.timestamp 86400

/-- pandas Series.mean: NaN (none) on an empty series, else sum over length. -/
def pandasMean (xs : List ℚ) : Option ℚ :=
  if xs.length = 0 then none else some (xs.sum / xs.length)

/-- pandas Series.var with ddof = 1: NaN on fewer than two elements, else the
sum of squared deviations from the mean divided by (n - 1). -/
def pandasVar (xs : List ℚ) : Option ℚ :=
  if xs.length ≤ 1 then none
  else
    let m : ℚ := xs.sum / xs.length
    some ((xs.map (fun x => (x - m) * (x - m))).sum / (xs.length - 1))

/-- pandas Series.std with ddof = 1 is the square root of Series.var; over ℚ
we carry the variance as the finite value (see the modelling conventions):
the std is NaN exactly when the var is, which is all the claims need. -/
def pandasStd (xs : List ℚ) : Option ℚ := pandasVar xs

/-- Insertion step for sorting a list of rationals in ascending order. -/
def insertQ (x : ℚ) : List ℚ → List ℚ
  | [] => [x]
  | y :: ys => if x ≤ y then x :: y :: ys else y :: insertQ x ys

/-- Insertion sort for rationals, ascending. -/
def sortQ (xs : List ℚ) : List ℚ := xs.foldr insertQ []

/-- pandas Series.median: NaN on an empty series, else the middle element of
the sorted series, or the mean of the two middle elements for even length. -/
def pandasMedian (xs : List ℚ) : Option ℚ :=
  if xs.length = 0 then none
  else
    let s := sortQ xs
    let n := s.length
    if n % 2 = 1 then some (s.getD (n / 2) 0)
    else some ((s.getD (n / 2 - 1) 0 + s.getD (n / 2) 0) / 2)

/-- pandas Series.max: NaN on an empty series. -/
def pandasMax (xs : List ℚ) : Option ℚ :=
  match xs with
  | [] => none
  | y :: ys => some (ys.foldl max y)

/-- pandas Series.min: NaN on an empty series. -/
def pandasMin (xs : List ℚ) : Option ℚ :=
  match xs with
  | [] => none
  | y :: ys => some (ys.foldl min y)

/-- Maximum of a list of rationals with default 0 for the empty list; used
only where the source guarantees a nonempty list. -/
def listMaxD (xs : List ℚ) : ℚ := xs.foldl max (xs.headD 0)

/-- Minimum of a list of rationals with default 0 for the empty list. -/
def listMinD (xs : List ℚ) : ℚ := xs.foldl min (xs.headD 0)

/-- numpy clip: values below lo are raised to lo, values above hi are
lowered to hi. -/
def npClip (x lo hi : ℚ) : ℚ := min (max x lo) hi

/-- The NaN/Inf cleanup performed downstream by the Base Scorer
(fillna(0) followed by replacing plus and minus infinity with 0, lines
116-118 of src/credit_scorer.py): NaN (none) becomes 0, finite values pass
through.  Infinities are not representable in the ℚ model. -/
def cleanValue : Option ℚ → ℚ
  | none => 0
  | some v => v

/-! Feature extraction (src/feature_engineering.py). -/

/-- Amount column of a per-wallet transaction frame. -/
def amounts (df : List Tx) : List ℚ := df.map Tx.amount

/-- Gas column of a per-wallet transaction frame. -/
def gasValues (df : List Tx) : List ℚ := df.map Tx.gas_used

/-- Timestamp column of a per-wallet transaction frame. -/
def timestamps (df : List Tx) : List ℤ := df.map Tx.timestamp

/-- Distinct asset symbols, in order of first appearance (pandas unique). -/
def uniqueAssets (df : List Tx) : List String := (df.map Tx.asset).dedup

/-- Rows whose action equals the given action (df[df.action == a]). -/
def actionTxs (df : List Tx) (a : Action) : List Tx :=
  df.filter (fun t => t.action == a)

/-- groupby(asset).amount.sum(): total amount per distinct asset. -/
def assetSums (df : List Tx) : List ℚ :=
  (uniqueAssets df).map (fun a =>
    ((df.filter (fun t => t.asset == a)).map Tx.amount).sum)

/-- Count of transactions for an action (value_counts().get(a, 0)). -/
def actionCount (df : List Tx) (a : Action) : ℕ := (actionTxs df a).length

/-- Summed amount for an action (groupby(action).amount.sum().get(a, 0)). -/
def actionVolume (df : List Tx) (a : Action) : ℚ :=
  ((actionTxs df a).map Tx.amount).sum

/-- Minimum of a list of integers with default 0 for the empty list. -/
def listMinZ (xs : List ℤ) : ℤ := xs.foldl min (xs.headD 0)

/-- Maximum of a list of integers with default 0 for the empty list. -/
def listMaxZ (xs : List ℤ) : ℤ := xs.foldl max (xs.headD 0)

/-- Insertion step for sorting a list of integers in ascending order. -/
def insertZ (x : ℤ) : List ℤ → List ℤ
  | [] => [x]
  | y :: ys => if x ≤ y then x :: y :: ys else y :: insertZ x ys

/-- Insertion sort for integers, ascending. -/
def sortZ (xs : List ℤ) : List ℤ := xs.foldr insertZ []

/-- Consecutive differences of a list (pandas Series.diff().dropna()). -/
def diffsZ : List ℤ → List ℤ
  | [] => []
  | [_] => []
  | a :: b :: rest => (b - a) :: diffsZ (b :: rest)

/-- Basic transaction statistics per wallet
(FeatureEngineering._extract_basic_features). -/
structure BasicFeatures where
  total_transactions : ℕ
  total_volume : ℚ
  avg_transaction_size : Option ℚ
  median_transaction_size : Option ℚ
  max_transaction_size : Option ℚ
  min_transaction_size : Option ℚ
  transaction_std : Option ℚ
  unique_assets : ℕ
  total_gas_used : ℚ
  avg_gas_per_tx : Option ℚ
deriving DecidableEq, Repr

/-- FeatureEngineering._extract_basic_features, field by field. -/
def extractBasicFeatures (df : List Tx) : BasicFeatures where
  total_transactions := df.length
  total_volume := (amounts df).sum
  avg_transaction_size := pandasMean (amounts df)
  median_transaction_size := pandasMedian (amounts df)
  max_transaction_size := pandasMax (amounts df)
  min_transaction_size := pandasMin (amounts df)
  transaction_std := pandasStd (amounts df)
  unique_assets := (uniqueAssets df).length
  total_gas_used := (gasValues df).sum
  avg_gas_per_tx := pandasMean (gasValues df)

/-- FeatureEngineering._calculate_asset_concentration: Herfindahl-Hirschman
index over per-asset volume shares, 0 when the total volume is 0. -/
def calculateAssetConcentration (df : List Tx) : ℚ :=
  let asset_volumes := assetSums df
  let total_volume := asset_volumes.sum
  if total_volume = 0 then 0
  else ((asset_volumes.map (fun v => (v / total_volume) * (v / total_volume)))).sum

/-- Financial behavior features per wallet
(FeatureEngineering._extract_financial_features). -/
structure FinancialFeatures where
  deposit_count : ℕ
  borrow_count : ℕ
  repay_count : ℕ
  redeem_count : ℕ
  liquidation_count : ℕ
  deposit_volume : ℚ
  borrow_volume : ℚ
  repay_volume : ℚ
  redeem_volume : ℚ
  net_deposit_volume : ℚ
  leverage_ratio : ℚ
  repay_ratio : ℚ
  asset_concentration_hhi : ℚ
  avg_position_size : Option ℚ
deriving DecidableEq, Repr

/-- FeatureEngineering._extract_financial_features, field by field. -/
def extractFinancialFeatures (df : List Tx) : FinancialFeatures :=
  let deposits := actionVolume df .deposit
  let borrows := actionVolume df .borrow
  let repays := actionVolume df .repay
  let redeems := actionVolume df .redeemunderlying
  { deposit_count := actionCount df .deposit
    borrow_count := actionCount df .borrow
    repay_count := actionCount df .repay
    redeem_count := actionCount df .redeemunderlying
    liquidation_count := actionCount df .liquidationcall
    deposit_volume := deposits
    borrow_volume := borrows
    repay_volume := repays
    redeem_volume := redeems
    net_deposit_volume := deposits - redeems
    leverage_ratio := if deposits > 0 then borrows / deposits else 0
    repay_ratio := if borrows > 0 then repays / borrows else 0
    asset_concentration_hhi := calculateAssetConcentration df
    avg_position_size := pandasMean (assetSums df) }

/-- FeatureEngineering._calculate_repay_consistency: 1.0 with no borrow rows,
0.0 with borrow rows but no repay rows, else min(repay volume / borrow
volume, 1.0). -/
def calculateRepayConsistency (borrow_df repay_df : List Tx) : ℚ :=
  if borrow_df.length = 0 then 1
  else if repay_df.length = 0 then 0
  else min (((repay_df.map Tx.amount).sum) / ((borrow_df.map Tx.amount).sum)) 1

/-- Risk behavior features per wallet
(FeatureEngineering._extract_risk_features). -/
structure RiskFeatures where
  liquidation_frequency : ℚ
  liquidation_volume_ratio : ℚ
  has_liquidations : Bool
  repay_consistency_score : ℚ
  position_size_variance : Option ℚ
  max_single_position_ratio : ℚ
deriving DecidableEq, Repr

/-- FeatureEngineering._extract_risk_features, field by field. -/
def extractRiskFeatures (df : List Tx) : RiskFeatures :=
  let liquidations := actionTxs df .liquidationcall
  let repay_df := actionTxs df .repay
  let borrow_df := actionTxs df .borrow
  let total_amount := (amounts df).sum
  { liquidation_frequency :=
      if df.length > 0 then (liquidations.length : ℚ) / (df.length : ℚ) else 0
    liquidation_volume_ratio :=
      if total_amount > 0 then ((liquidations.map Tx.amount).sum) / total_amount else 0
    has_liquidations := decide (0 < liquidations.length)
    repay_consistency_score := calculateRepayConsistency borrow_df repay_df
    position_size_variance := pandasVar (assetSums df)
    max_single_position_ratio :=
      if total_amount > 0 then listMaxD (assetSums df) / total_amount else 0 }

/-- FeatureEngineering._calculate_max_inactive_period inner loop: walk the
sorted distinct dates, add (gap between consecutive dates minus 1) to the
running counter when positive, reset the counter to 0 otherwise, and track
the maximum counter value seen. -/
def inactiveWalk (prev max_gap current_gap : ℤ) : List ℤ → ℤ
  | [] => max_gap
  | d :: ds =>
    let gap_days := d - prev - 1
    if gap_days > 0 then
      inactiveWalk d (max max_gap (current_gap + gap_days)) (current_gap + gap_days) ds
    else
      inactiveWalk d max_gap 0 ds

/-- FeatureEngineering._calculate_max_inactive_period: 0 for at most one
transaction, else the walk over the sorted distinct active dates. -/
def calculateMaxInactivePeriod (df : List Tx) : ℤ :=
  if df.length ≤ 1 then 0
  else
    match sortZ ((df.map txDate).dedup) with
    | [] => 0
    | d :: ds => inactiveWalk d 0 0 ds

/-- Per-calendar-day transaction counts (groupby(dt.date).size()). -/
def dailyCounts (df : List Tx) : List ℚ :=
  ((df.map txDate).dedup).map (fun d =>
    ((df.filter (fun t => txDate t == d)).length : ℚ))

/-- Inter-transaction gaps in seconds, after sorting by timestamp. -/
def timeIntervals (df : List Tx) : List ℚ :=
  (diffsZ (sortZ (timestamps df))).map (fun z => (z : ℚ))

/-- pandas dt.dayofweek on an epoch-seconds timestamp: Monday is 0; day 0 of
the epoch was a Thursday, hence the shift by 3. -/
def dayOfWeek (t : Tx) : ℤ := (txDate t + 3) % 7

/-- Temporal behavior features per wallet
(FeatureEngineering._extract_temporal_features). -/
structure TemporalFeatures where
  tenure_days : ℤ
  activity_frequency : ℚ
  activity_consistency_cv : Option ℚ
  avg_time_between_tx_hours : ℚ
  median_time_between_tx_hours : ℚ
  weekend_activity_ratio : ℚ
  days_active : ℕ
  max_inactive_days : ℤ
deriving DecidableEq, Repr

/-- FeatureEngineering._extract_temporal_features, field by field.  The
activity consistency is std/mean of the per-day counts when the mean is
positive (a NaN std propagates), else 0; a NaN mean fails the positivity
test, giving 0, as in Python where a comparison with NaN is false. -/
def extractTemporalFeatures (df : List Tx) : TemporalFeatures :=
  let first_tx := listMinZ (timestamps df)
  let last_tx := listMaxZ (timestamps df)
  let tenure : ℤ := Int.fdiv (last_tx - first_tx) 86400
  let daily := dailyCounts df
  let intervals := timeIntervals df
  { tenure_days := tenure
    activity_frequency := (df.length : ℚ) / ((max tenure 1 : ℤ) : ℚ)
    activity_consistency_cv :=
      match pandasMean daily with
      | none => some 0
      | some m =>
        if m > 0 then (pandasStd daily).map (fun s => s / m) else some 0
    avg_time_between_tx_hours :=
      if 0 < intervals.length then ((pandasMean intervals).getD 0) / 3600 else 0
    median_time_between_tx_hours :=
      if 0 < intervals.length then ((pandasMedian intervals).getD 0) / 3600 else 0
    weekend_activity_ratio :=
      ((df.filter (fun t => dayOfWeek t == 5 || dayOfWeek t == 6)).length : ℚ)
        / (df.length : ℚ)
    days_active := daily.length
    max_inactive_days := calculateMaxInactivePeriod df }

/-- DeFiCreditScorer._categorize_score: fixed banding of scores into the five
category labels. -/
def categorizeScore (score : ℚ) : String :=
  if score ≥ 900 then "Excellent (900-1000)"
  else if score ≥ 700 then "Good (700-899)"
  else if score ≥ 500 then "Fair (500-699)"
  else if score ≥ 300 then "Poor (300-499)"
  else "Very Poor (0-299)"

/-! Base scorer (src/credit_scorer.py). -/

/-- The fixed feature weight table of
DeFiCreditScorer._define_feature_weights: one weight per scored feature. -/
structure FeatureWeights where
  repay_consistency_score : ℚ
  liquidation_frequency : ℚ
  activity_consistency_cv : ℚ
  has_liquidations : ℚ
  action_diversity_score : ℚ
  asset_concentration_hhi : ℚ
  gas_optimization_score : ℚ
  transaction_complexity_score : ℚ
  total_volume : ℚ
  tenure_days : ℚ
  total_transactions : ℚ
  leverage_ratio : ℚ
  position_size_variance : ℚ
  bot_like_regularity : ℚ
deriving DecidableEq, Repr

/-- DeFiCreditScorer._define_feature_weights, value by value. -/
def featureWeights : FeatureWeights where
  repay_consistency_score := 15/100
  liquidation_frequency := -10/100
  activity_consistency_cv := -5/100
  has_liquidations := -10/100
  action_diversity_score := 8/100
  asset_concentration_hhi := -5/100
  gas_optimization_score := 7/100
  transaction_complexity_score := 5/100
  total_volume := 8/100
  tenure_days := 7/100
  total_transactions := 5/100
  leverage_ratio := -5/100
  position_size_variance := -5/100
  bot_like_regularity := -5/100

/-- The robustly scaled values of the fourteen weighted features for one
wallet, as produced by the fitted RobustScaler on the feature matrix. -/
structure ScaledFeatures where
  repay_consistency_score : ℚ
  liquidation_frequency : ℚ
  activity_consistency_cv : ℚ
  has_liquidations : ℚ
  action_diversity_score : ℚ
  asset_concentration_hhi : ℚ
  gas_optimization_score : ℚ
  transaction_complexity_score : ℚ
  total_volume : ℚ
  tenure_days : ℚ
  total_transactions : ℚ
  leverage_ratio : ℚ
  position_size_variance : ℚ
  bot_like_regularity : ℚ
deriving DecidableEq, Repr

/-- The weighted sum of DeFiCreditScorer._calculate_weighted_score: for each
feature of the weight table, weight times the scaled value clipped to
[-3, 3] times 100. -/
def weightedSum (s : ScaledFeatures) : ℚ :=
  featureWeights.repay_consistency_score * npClip s.repay_consistency_score (-3) 3 * 100
  + featureWeights.liquidation_frequency * npClip s.liquidation_frequency (-3) 3 * 100
  + featureWeights.activity_consistency_cv * npClip s.activity_consistency_cv (-3) 3 * 100
  + featureWeights.has_liquidations * npClip s.has_liquidations (-3) 3 * 100
  + featureWeights.action_diversity_score * npClip s.action_diversity_score (-3) 3 * 100
  + featureWeights.asset_concentration_hhi * npClip s.asset_concentration_hhi (-3) 3 * 100
  + featureWeights.gas_optimization_score * npClip s.gas_optimization_score (-3) 3 * 100
  + featureWeights.transaction_complexity_score * npClip s.transaction_complexity_score (-3) 3 * 100
  + featureWeights.total_volume * npClip s.total_volume (-3) 3 * 100
  + featureWeights.tenure_days * npClip s.tenure_days (-3) 3 * 100
  + featureWeights.total_transactions * npClip s.total_transactions (-3) 3 * 100
  + featureWeights.leverage_ratio * npClip s.leverage_ratio (-3) 3 * 100
  + featureWeights.position_size_variance * npClip s.position_size_variance (-3) 3 * 100
  + featureWeights.bot_like_regularity * npClip s.bot_like_regularity (-3) 3 * 100

/-- The raw feature values read by the heuristic bonus pass.  The counts are
naturals by construction of the extractor; bot_like_regularity involves a
square root and is carried as a value fitted outside the embedding. -/
structure RawFeatures where
  tenure_days : ℤ
  total_transactions : ℕ
  unique_assets : ℕ
  repay_ratio : ℚ
  borrow_count : ℕ
  liquidation_count : ℕ
  bot_like_regularity : ℚ
deriving DecidableEq, Repr

/-- DeFiCreditScorer._apply_heuristic_bonuses, branch by branch. -/
def applyHeuristicBonuses (f : RawFeatures) : ℚ :=
  (if f.tenure_days > 365 then 50 else if f.tenure_days > 180 then 25 else 0)
  + (if f.total_transactions > 50 then 30 else if f.total_transactions > 20 then 15 else 0)
  + (if f.unique_assets > 5 then 20 else if f.unique_assets > 3 then 10 else 0)
  + (if f.repay_ratio ≥ 1 ∧ 0 < f.borrow_count then 40 else 0)
  + (if 0 < f.liquidation_count then -((f.liquidation_count : ℚ) * 30) else 0)
  + (if f.bot_like_regularity > 7/10 then (-100 : ℚ) else 0)

/-- DeFiCreditScorer._calculate_weighted_score: 500 plus the clipped weighted
sum plus the heuristic bonuses. -/
def calculateWeightedScore (scaled : ScaledFeatures) (raw : RawFeatures) : ℚ :=
  500 + weightedSum scaled + applyHeuristicBonuses raw

/-- The transform of a fitted sklearn RobustScaler on one feature value:
subtract the fitted center (the column median) and divide by the fitted
scale (the column interquartile range, with zeros replaced by 1, hence
always positive). -/
def robustScale (center scale x : ℚ) : ℚ := (x - center) / scale

/-- The contribution of one feature to the weighted score in
DeFiCreditScorer._calculate_weighted_score: weight times the clipped scaled
value times 100. -/
def featureContribution (w center scale x : ℚ) : ℚ :=
  w * npClip (robustScale center scale x) (-3) 3 * 100

/-! Risk adjuster (DeFiCreditScorer._apply_risk_adjustments). -/

/-- Per-wallet inputs of the risk adjustment pass: the base score, the
anomaly flag produced by the fitted IsolationForest, the cluster label
produced by the fitted KMeans, and the liquidation frequency feature. -/
structure WalletRisk where
  base_score : ℚ
  anomaly : Bool
  cluster : Fin 5
  liquidation_frequency : ℚ
deriving DecidableEq, Repr

/-- Members of one cluster (features_df[cluster_mask]). -/
def clusterMembers (ws : List WalletRisk) (c : Fin 5) : List WalletRisk :=
  ws.filter (fun w => w.cluster == c)

/-- Mean liquidation frequency of a cluster, the pandas mean of the
liquidation_frequency column over the cluster members (meaningful when the
cluster is nonempty, which the caller checks). -/
def clusterMeanLiq (ws : List WalletRisk) (c : Fin 5) : ℚ :=
  ((clusterMembers ws c).map WalletRisk.liquidation_frequency).sum
    / ((clusterMembers ws c).length : ℚ)

/-- One iteration of the cluster loop of
DeFiCreditScorer._apply_risk_adjustments: when the cluster is nonempty and
its mean liquidation frequency is above 0.1, multiply every member score by
0.8; when it is below 0.01, multiply by 1.1; otherwise leave all scores
unchanged. -/
def applyClusterAdjustment (ws : List WalletRisk) (scores : List ℚ) (c : Fin 5) : List ℚ :=
  let members := clusterMembers ws c
  if 0 < members.length then
    let avg_liquidations := clusterMeanLiq ws c
    if avg_liquidations > 1/10 then
      (ws.zip scores).map (fun p => if p.1.cluster == c then p.2 * (8/10) else p.2)
    else if avg_liquidations < 1/100 then
      (ws.zip scores).map (fun p => if p.1.cluster == c then p.2 * (11/10) else p.2)
    else scores
  else scores

/-- DeFiCreditScorer._apply_risk_adjustments: start from the base score,
multiply by 0.7 for wallets flagged anomalous, then run the cluster loop for
clusters 0 to 4. -/
def applyRiskAdjustments (ws : List WalletRisk) : List ℚ :=
  let init := ws.map (fun w => if w.anomaly then w.base_score * (7/10) else w.base_score)
  (List.finRange 5).foldl (applyClusterAdjustment ws) init

/-- The cluster multiplier as C4 states it: 0.8 when the cluster mean
liquidation frequency exceeds 0.10, 1.1 when it is below 0.01, else 1.
Stated directly from the claim, to be compared with the loop-based
applyRiskAdjustments. -/
def clusterFactor (ws : List WalletRisk) (c : Fin 5) : ℚ :=
  if clusterMeanLiq ws c > 1/10 then 8/10
  else if clusterMeanLiq ws c < 1/100 then 11/10
  else 1

/-! Score normalizer (DeFiCreditScorer._normalize_scores). -/

/-- numpy percentile with the default linear interpolation: the virtual
index is p/100 times (n - 1) into the sorted data, and the value is the
linear interpolation between its two neighbouring order statistics. -/
def npPercentile (xs : List ℚ) (p : ℚ) : ℚ :=
  let s := sortQ xs
  let n := s.length
  let h : ℚ := p * ((n : ℚ) - 1) / 100
  let i : ℕ := (⌊h⌋ : ℤ).toNat
  let f : ℚ := h - (⌊h⌋ : ℤ)
  let lo := s.getD i 0
  let hi := s.getD (i + 1) lo
  lo + f * (hi - lo)

/-- A score row entering the normalizer: the pre-normalization base score
and the risk-adjusted score. -/
structure ScoreRow where
  base_score : ℚ
  risk_adjusted_score : ℚ
deriving DecidableEq, Repr

/-- A score row leaving the normalizer, with the final credit score and its
category label. -/
structure FinalRow where
  base_score : ℚ
  risk_adjusted_score : ℚ
  credit_score : ℚ
  score_category : String
deriving DecidableEq, Repr

/-- The risk-adjusted scores clipped to their population 1st and 99th
percentiles (lines 211-212 of src/credit_scorer.py). -/
def clippedScores (rows : List ScoreRow) : List ℚ :=
  let scores := rows.map ScoreRow.risk_adjusted_score
  let q1 := npPercentile scores 1
  let q99 := npPercentile scores 99
  scores.map (fun s => npClip s q1 q99)

/-- The normalized scores before the override pass (lines 214-218 of
src/credit_scorer.py): linear rescaling of the clipped range to [0, 1000],
or the constant 500 when the clipped maximum does not exceed the minimum. -/
def normalizedPreOverride (rows : List ScoreRow) : List ℚ :=
  let clipped := clippedScores rows
  let min_score := listMinD clipped
  let max_score := listMaxD clipped
  if max_score > min_score then
    clipped.map (fun s => 1000 * (s - min_score) / (max_score - min_score))
  else
    clipped.map (fun _ => 500)

/-- DeFiCreditScorer._normalize_scores: percentile clipping, rescaling,
base-score overrides (cap at 300 below base 200, floor at 700 above base
800), unconditional clamp to [0, 1000], and category labelling. -/
def normalizeScores (rows : List ScoreRow) : List FinalRow :=
  (rows.zip (normalizedPreOverride rows)).map (fun p =>
    let score :=
      if p.1.base_score < 200 then min p.2 300
      else if p.1.base_score > 800 then max p.2 700
      else p.2
    let credit := max 0 (min 1000 score)
    ⟨p.1.base_score, p.1.risk_adjusted_score, credit, categorizeScore credit⟩)

/-! Pipeline wiring (DeFiCreditScorer.score_wallets and main). -/

/-- Insertion step for sorting a list of strings in ascending order. -/
def insertS (x : String) : List String → List String
  | [] => [x]
  | y :: ys => if x ≤ y then x :: y :: ys else y :: insertS x ys

/-- Insertion sort for strings, ascending; pandas groupby sorts group keys. -/
def sortS (xs : List String) : List String := xs.foldr insertS []

/-- groupby(wallet_address): one group per distinct wallet, keys sorted. -/
def walletGroups (df : List Tx) : List (String × List Tx) :=
  (sortS ((df.map Tx.wallet).dedup)).map (fun w =>
    (w, df.filter (fun t => t.wallet == w)))

/-- The raw feature values feeding the heuristic bonus pass for one wallet
group, assembled from the extracted features; the bot regularity value is
supplied from outside (see RawFeatures). -/
def rawFeaturesOf (df : List Tx) (bot : ℚ) : RawFeatures :=
  let fin := extractFinancialFeatures df
  let tem := extractTemporalFeatures df
  { tenure_days := tem.tenure_days
    total_transactions := (extractBasicFeatures df).total_transactions
    unique_assets := (extractBasicFeatures df).unique_assets
    repay_ratio := fin.repay_ratio
    borrow_count := fin.borrow_count
    liquidation_count := fin.liquidation_count
    bot_like_regularity := bot }

/-- DeFiCreditScorer.score_wallets: extract per-wallet features; on an empty
feature table return the empty table at once; otherwise compute base
scores, risk adjustments and normalization.  The fitted scaler output, bot
regularity, anomaly flags and cluster labels are indexed by the position of
the wallet group. -/
def scoreWallets (scaled : ℕ → ScaledFeatures) (bot : ℕ → ℚ)
    (anomaly : ℕ → Bool) (cluster : ℕ → Fin 5) (df : List Tx) : List FinalRow :=
  let groups := walletGroups df
  if groups.isEmpty then []
  else
    let base := (List.range groups.length).map (fun i =>
      calculateWeightedScore (scaled i) (rawFeaturesOf (groups.getD i ("", [])).2 (bot i)))
    let ws : List WalletRisk := (List.range groups.length).map (fun i =>
      ⟨base.getD i 0, anomaly i, cluster i,
        (extractRiskFeatures (groups.getD i ("", [])).2).liquidation_frequency⟩)
    let adjusted := applyRiskAdjustments ws
    normalizeScores ((base.zip adjusted).map (fun p => ⟨p.1, p.2⟩))

/-- Observable outcome of one CLI run: the process exit status, whether a
failure message was printed, and the score table written (none when the run
stops early). -/
structure MainResult where
  exit_code : ℕ
  failure_reported : Bool
  output : Option (List FinalRow)
deriving DecidableEq, Repr

/-- The main function of src/credit_scorer.py: an empty loaded table prints
a failure message and returns; an empty score table prints a failure message
and returns; otherwise the results are saved.  Every branch returns from
main normally and no branch calls sys.exit, so the process exit status is 0
on all three paths. -/
def mainRun (scaled : ℕ → ScaledFeatures) (bot : ℕ → ℚ)
    (anomaly : ℕ → Bool) (cluster : ℕ → Fin 5) (df : List Tx) : MainResult :=
  if df.isEmpty then ⟨0, true, none⟩
  else
    let results := scoreWallets scaled bot anomaly cluster df
    if results.isEmpty then ⟨0, true, none⟩
    else ⟨0, false, some results⟩

/-! Theorems. -/

/-- Step equation of the inactivity walk, for rewriting. -/
theorem inactiveWalk_cons (prev mg cg d : ℤ) (ds : List ℤ) :
    inactiveWalk prev mg cg (d :: ds) =
      if d - prev - 1 > 0 then
        inactiveWalk d (max mg (cg + (d - prev - 1))) (cg + (d - prev - 1)) ds
      else inactiveWalk d mg 0 ds := rfl

/-- C9: score category assignment is a fixed, contiguous, non-overlapping,
exhaustive banding of [0, 1000]: [900, 1000] maps to Excellent, [700, 900)
to Good, [500, 700) to Fair, [300, 500) to Poor, [0, 300) to Very Poor;
every score in [0, 1000] receives exactly one of the five labels, with no
gap or overlap at 300, 500, 700, 900. -/
theorem categorizeScore_bands (s : ℚ) (h0 : 0 ≤ s) (h1 : s ≤ 1000) :
    (categorizeScore s = "Excellent (900-1000)" ↔ 900 ≤ s ∧ s ≤ 1000)
  ∧ (categorizeScore s = "Good (700-899)" ↔ 700 ≤ s ∧ s < 900)
  ∧ (categorizeScore s = "Fair (500-699)" ↔ 500 ≤ s ∧ s < 700)
  ∧ (categorizeScore s = "Poor (300-499)" ↔ 300 ≤ s ∧ s < 500)
  ∧ (categorizeScore s = "Very Poor (0-299)" ↔ 0 ≤ s ∧ s < 300) := by
  unfold categorizeScore
  split_ifs with hA hB hC hD <;>
    refine ⟨?_, ?_, ?_, ?_, ?_⟩ <;>
    simp only [String.reduceEq, false_iff, true_iff, iff_true, iff_false, not_and, not_lt,
      not_le] <;>
    try constructor
  all_goals try intro hx
  all_goals linarith

/-- Witness for C9: the boundary score 300 lies in [0, 1000] and is labelled
Poor. -/
theorem categorizeScore_bands_witness :
    ((0 : ℚ) ≤ 300 ∧ (300 : ℚ) ≤ 1000) ∧ categorizeScore 300 = "Poor (300-499)" :=
  ⟨⟨by norm_num, by norm_num⟩,
    ((categorizeScore_bands 300 (by norm_num) (by norm_num)).2.2.2.1).mpr
      ⟨by norm_num, by norm_num⟩⟩

/-- C5: a wallet with no borrow transactions has repayment consistency 1.0
and repay ratio 0; borrow transactions without repay transactions give
consistency 0.0; otherwise the consistency is min(repay volume / borrow
volume, 1), hence never exceeds 1. -/
theorem repayConsistency_cases (df : List Tx) :
    (actionTxs df .borrow = [] →
        (extractRiskFeatures df).repay_consistency_score = 1
      ∧ (extractFinancialFeatures df).repay_ratio = 0)
  ∧ (actionTxs df .borrow ≠ [] → actionTxs df .repay = [] →
        (extractRiskFeatures df).repay_consistency_score = 0)
  ∧ (actionTxs df .borrow ≠ [] → actionTxs df .repay ≠ [] →
        (extractRiskFeatures df).repay_consistency_score =
          min ((actionVolume df .repay) / (actionVolume df .borrow)) 1
      ∧ (extractRiskFeatures df).repay_consistency_score ≤ 1) := by
  have h1 : (extractRiskFeatures df).repay_consistency_score
      = calculateRepayConsistency (actionTxs df .borrow) (actionTxs df .repay) := rfl
  have h2 : (extractFinancialFeatures df).repay_ratio
      = if actionVolume df .borrow > 0 then actionVolume df .repay / actionVolume df .borrow
        else 0 := rfl
  refine ⟨fun hb => ⟨?_, ?_⟩, fun hb hr => ?_, fun hb hr => ⟨?_, ?_⟩⟩
  · rw [h1, hb]; rfl
  · rw [h2]; simp [actionVolume, hb]
  · rw [h1, hr, calculateRepayConsistency,
      if_neg (by simpa [List.length_eq_zero] using hb)]
    rfl
  · rw [h1, calculateRepayConsistency,
      if_neg (by simpa [List.length_eq_zero] using hb),
      if_neg (by simpa [List.length_eq_zero] using hr)]
    rfl
  · rw [h1, calculateRepayConsistency]
    split_ifs
    · norm_num
    · norm_num
    · exact min_le_right _ _

/-- Wallet frame with a single deposit, for the C5 witness. -/
def dfDepositOnly : List Tx := [⟨"a", .deposit, "x", 100, 1, 0⟩]

/-- Wallet frame with a borrow and no repay, for the C5 witness. -/
def dfBorrowOnly : List Tx := [⟨"a", .borrow, "x", 10, 1, 0⟩]

/-- Wallet frame with a borrow and a repay, for the C5 witness. -/
def dfBorrowRepay : List Tx :=
  [⟨"a", .borrow, "x", 10, 1, 0⟩, ⟨"a", .repay, "x", 25, 1, 0⟩]

/-- Witness for C5: the three branches at concrete one- and two-transaction
wallets. -/
theorem repayConsistency_cases_witness :
    ((extractRiskFeatures dfDepositOnly).repay_consistency_score = 1
      ∧ (extractFinancialFeatures dfDepositOnly).repay_ratio = 0)
  ∧ (extractRiskFeatures dfBorrowOnly).repay_consistency_score = 0
  ∧ ((extractRiskFeatures dfBorrowRepay).repay_consistency_score
        = min ((actionVolume dfBorrowRepay .repay) / (actionVolume dfBorrowRepay .borrow)) 1
      ∧ (extractRiskFeatures dfBorrowRepay).repay_consistency_score ≤ 1) :=
  ⟨(repayConsistency_cases dfDepositOnly).1 rfl,
   (repayConsistency_cases dfBorrowOnly).2.1 (by simp [dfBorrowOnly, actionTxs]) rfl,
   (repayConsistency_cases dfBorrowRepay).2.2 (by simp [dfBorrowRepay, actionTxs])
     (by simp [dfBorrowRepay, actionTxs])⟩

/-- C6: the max inactive period accumulates (days-between minus 1) over
consecutive sorted distinct active dates whenever the gap exceeds one day,
resets the counter on adjacent dates, and returns the maximum counter seen.
For active dates day0, day0+1, day0+5, day0+6 the result is exactly 3; the
accumulation (rather than taking the largest single gap) shows on dates
day0, day0+2, day0+4, where the result is 2 though each single gap is 1;
a wallet with at most one distinct active calendar date yields 0, whether
it has one transaction or many on that single date. -/
theorem maxInactivePeriod_spec :
    (∀ d0 : ℤ, calculateMaxInactivePeriod
        [⟨"a", .deposit, "x", 1, 1, d0 * 86400⟩,
         ⟨"a", .deposit, "x", 1, 1, (d0 + 1) * 86400⟩,
         ⟨"a", .deposit, "x", 1, 1, (d0 + 5) * 86400⟩,
         ⟨"a", .deposit, "x", 1, 1, (d0 + 6) * 86400⟩] = 3)
  ∧ (∀ d0 : ℤ, calculateMaxInactivePeriod
        [⟨"a", .deposit, "x", 1, 1, d0 * 86400⟩,
         ⟨"a", .deposit, "x", 1, 1, (d0 + 2) * 86400⟩,
         ⟨"a", .deposit, "x", 1, 1, (d0 + 4) * 86400⟩] = 2)
  ∧ (∀ df : List Tx, ((df.map txDate).dedup).length ≤ 1 →
      calculateMaxInactivePeriod df = 0) := by
  have hd : ∀ k : ℤ, Int.fdiv (k * 86400) 86400 = k := fun k =>
    Int.mul_fdiv_cancel k (by norm_num)
  have hins : ∀ (x y : ℤ) (ys : List ℤ), x ≤ y →
      insertZ x (y :: ys) = x :: y :: ys := fun x y ys h => by
    rw [insertZ, if_pos h]
  refine ⟨fun d0 => ?_, fun d0 => ?_, fun df h => ?_⟩
  · simp only [calculateMaxInactivePeriod, List.length_cons, List.length_nil, txDate,
      List.map_cons, List.map_nil, hd]
    norm_num
    simp only [sortZ, List.foldr_cons, List.foldr_nil]
    rw [show insertZ (d0 + 6) [] = [d0 + 6] from rfl,
      hins _ _ _ (by omega), hins _ _ _ (by omega), hins _ _ _ (by omega)]
    show inactiveWalk d0 0 0 [d0 + 1, d0 + 5, d0 + 6] = 3
    rw [inactiveWalk_cons, if_neg (by omega), inactiveWalk_cons, if_pos (by omega),
      inactiveWalk_cons, if_neg (by omega)]
    show max 0 (0 + (d0 + 5 - (d0 + 1) - 1)) = 3
    omega
  · simp only [calculateMaxInactivePeriod, List.length_cons, List.length_nil, txDate,
      List.map_cons, List.map_nil, hd]
    norm_num
    simp only [sortZ, List.foldr_cons, List.foldr_nil]
    rw [show insertZ (d0 + 4) [] = [d0 + 4] from rfl,
      hins _ _ _ (by omega), hins _ _ _ (by omega)]
    show inactiveWalk d0 0 0 [d0 + 2, d0 + 4] = 2
    rw [inactiveWalk_cons, if_pos (by omega), inactiveWalk_cons, if_pos (by omega)]
    show max (max 0 (0 + (d0 + 2 - d0 - 1))) (0 + (d0 + 2 - d0 - 1) + (d0 + 4 - (d0 + 2) - 1)) = 2
    omega
  · rw [calculateMaxInactivePeriod]
    split_ifs with hlen
    · rfl
    · rcases hdates : (df.map txDate).dedup with _ | ⟨d, t⟩
      · rfl
      · have ht : t = [] := by
          rw [hdates] at h
          simpa [Nat.succ_le_succ_iff] using h
        subst ht
        rfl

/-- A wallet frame with two transactions an hour apart on the same calendar
date, for the C6 witness. -/
def dfSameDay : List Tx :=
  [⟨"a", .deposit, "x", 1, 1, 0⟩, ⟨"a", .borrow, "x", 1, 1, 3600⟩]

/-- Witness for C6: the at-most-one-active-date branch at a two-transaction
single-date frame, and part one at day0 = 0. -/
theorem maxInactivePeriod_spec_witness :
    (((dfSameDay.map txDate).dedup).length ≤ 1
      ∧ calculateMaxInactivePeriod dfSameDay = 0)
  ∧ calculateMaxInactivePeriod
      [⟨"a", .deposit, "x", 1, 1, 0 * 86400⟩,
       ⟨"a", .deposit, "x", 1, 1, (0 + 1) * 86400⟩,
       ⟨"a", .deposit, "x", 1, 1, (0 + 5) * 86400⟩,
       ⟨"a", .deposit, "x", 1, 1, (0 + 6) * 86400⟩] = 3 :=
  ⟨⟨by decide, maxInactivePeriod_spec.2.2 dfSameDay (by decide)⟩,
   maxInactivePeriod_spec.1 0⟩

/-- A concrete single-transaction wallet frame. -/
def txSingle : Tx := ⟨"wallet1", .deposit, "USDC", 100, 21000, 0⟩

/-- Counterexample to C2: for a concrete wallet with a single transaction,
the extracted feature vector already contains NaN — transaction_std,
position_size_variance and activity_consistency_cv are all NaN (none), so
NaN is not replaced before the vector leaves extraction. -/
theorem singleTx_NaN_in_extraction :
    (extractBasicFeatures [txSingle]).transaction_std = none
  ∧ (extractRiskFeatures [txSingle]).position_size_variance = none
  ∧ (extractTemporalFeatures [txSingle]).activity_consistency_cv = none := by
  refine ⟨rfl, rfl, ?_⟩
  have hdaily : dailyCounts [txSingle] = [1] := by
    simp [dailyCounts, List.dedup, List.filter]
  simp [extractTemporalFeatures, hdaily, pandasMean, pandasStd, pandasVar]

/-- C2 amended: for every wallet with a single transaction, the extracted
transaction_std, position_size_variance and activity_consistency_cv are NaN
(none) in the feature vector leaving extraction; finiteness is only
restored downstream, where the Base Scorer replaces NaN with 0 (fillna)
before scaling. -/
theorem singleTx_NaN_fields (t : Tx) :
    (extractBasicFeatures [t]).transaction_std = none
  ∧ (extractRiskFeatures [t]).position_size_variance = none
  ∧ (extractTemporalFeatures [t]).activity_consistency_cv = none
  ∧ cleanValue ((extractBasicFeatures [t]).transaction_std) = 0 := by
  have hstd : pandasStd [t.amount] = none := by
    simp [pandasStd, pandasVar]
  have hassets : assetSums [t] = [t.amount] := by
    simp [assetSums, uniqueAssets, List.dedup, List.filter]
  have hbasic : (extractBasicFeatures [t]).transaction_std = none := by
    simpa [extractBasicFeatures, amounts] using hstd
  refine ⟨hbasic, ?_, ?_, ?_⟩
  · simp [extractRiskFeatures, hassets, pandasVar]
  · have hdaily : dailyCounts [t] = [1] := by
      simp [dailyCounts, List.dedup, List.filter]
    simp [extractTemporalFeatures, hdaily, pandasMean, pandasStd, pandasVar]
  · rw [hbasic]
    rfl

/-- C8 amended: on an empty input table the pipeline returns an empty score
table and the CLI run reports failure and stops early without an unhandled
exception, but the process exit status is 0 on this path (main returns
normally; no branch calls sys.exit), not non-zero. -/
theorem emptyInput_behavior (scaled : ℕ → ScaledFeatures) (bot : ℕ → ℚ)
    (anomaly : ℕ → Bool) (cluster : ℕ → Fin 5) :
    scoreWallets scaled bot anomaly cluster [] = []
  ∧ mainRun scaled bot anomaly cluster [] = ⟨0, true, none⟩ := ⟨rfl, rfl⟩

/-- The all-zero scaled feature vector, a concrete scaler output. -/
def zeroScaled : ScaledFeatures := ⟨0, 0, 0, 0, 0, 0, 0, 0, 0, 0, 0, 0, 0, 0⟩

/-- Counterexample to C8: on the empty input the CLI run exits with status
0, refuting the non-zero exit claimed for this path (the failure is
reported only through the printed message and the missing output). -/
theorem emptyInput_exit_code_zero :
    (mainRun (fun _ => zeroScaled) (fun _ => 0) (fun _ => false) (fun _ => 0) []).exit_code
      = 0 := rfl

/-- Upper bound of the clip: the clipped value never exceeds hi. -/
theorem npClip_le (x lo hi : ℚ) : npClip x lo hi ≤ hi := min_le_right _ _

/-- Lower bound of the clip when the bounds are ordered. -/
theorem le_npClip (x lo hi : ℚ) (h : lo ≤ hi) : lo ≤ npClip x lo hi :=
  le_min (le_max_right _ _) h

/-- C7: holding the fitted scaler parameters fixed, strictly increasing the
raw repay_consistency_score never decreases that feature contribution to
the base score: the weight 0.15 is positive and robust scaling and clipping
are monotone. -/
theorem repayContribution_monotone (center scale x1 x2 : ℚ)
    (hs : 0 < scale) (hx : x1 < x2) :
    featureContribution featureWeights.repay_consistency_score center scale x1
      ≤ featureContribution featureWeights.repay_consistency_score center scale x2 := by
  have h1 : robustScale center scale x1 ≤ robustScale center scale x2 := by
    unfold robustScale
    exact div_le_div_of_nonneg_right (by linarith) hs.le
  have h2 : npClip (robustScale center scale x1) (-3) 3
      ≤ npClip (robustScale center scale x2) (-3) 3 :=
    min_le_min (max_le_max h1 le_rfl) le_rfl
  unfold featureContribution
  have hw : featureWeights.repay_consistency_score = 15/100 := rfl
  rw [hw]
  linarith

/-- Witness for C7: monotonicity at center 0, scale 1, raw values 0 and 1. -/
theorem repayContribution_monotone_witness :
    ((0 : ℚ) < 1 ∧ (0 : ℚ) < 1)
  ∧ featureContribution featureWeights.repay_consistency_score 0 1 0
      ≤ featureContribution featureWeights.repay_consistency_score 0 1 1 :=
  ⟨⟨by norm_num, by norm_num⟩,
    repayContribution_monotone 0 1 0 1 (by norm_num) (by norm_num)⟩

/-- The heuristic bonuses total at most 140: the positive branches give at
most 50 + 30 + 20 + 40, the liquidation and bot branches only subtract. -/
theorem bonus_le (f : RawFeatures) : applyHeuristicBonuses f ≤ 140 := by
  unfold applyHeuristicBonuses
  have h1 : (if f.tenure_days > 365 then (50:ℚ) else if f.tenure_days > 180 then 25 else 0)
      ≤ 50 := by split_ifs <;> norm_num
  have h2 : (if f.total_transactions > 50 then (30:ℚ)
      else if f.total_transactions > 20 then 15 else 0) ≤ 30 := by split_ifs <;> norm_num
  have h3 : (if f.unique_assets > 5 then (20:ℚ) else if f.unique_assets > 3 then 10 else 0)
      ≤ 20 := by split_ifs <;> norm_num
  have h4 : (if f.repay_ratio ≥ 1 ∧ 0 < f.borrow_count then (40:ℚ) else 0) ≤ 40 := by
    split_ifs <;> norm_num
  have h5 : (if 0 < f.liquidation_count then -((f.liquidation_count : ℚ) * 30) else 0)
      ≤ 0 := by
    split_ifs with h
    · have : (0:ℚ) ≤ (f.liquidation_count : ℚ) * 30 := by positivity
      linarith
    · norm_num
  have h6 : (if f.bot_like_regularity > 7/10 then (-100 : ℚ) else 0) ≤ 0 := by
    split_ifs <;> norm_num
  linarith

/-- The clipped weighted sum deviates from the 500 baseline by at most 300
upward: each term is bounded by the absolute weight times 300, and the
absolute weights total 1. -/
theorem weightedSum_le (s : ScaledFeatures) : weightedSum s ≤ 300 := by
  unfold weightedSum
  simp only [featureWeights]
  have c1 := npClip_le s.repay_consistency_score (-3) 3
  have c2 := le_npClip s.liquidation_frequency (-3) 3 (by norm_num)
  have c3 := le_npClip s.activity_consistency_cv (-3) 3 (by norm_num)
  have c4 := le_npClip s.has_liquidations (-3) 3 (by norm_num)
  have c5 := npClip_le s.action_diversity_score (-3) 3
  have c6 := le_npClip s.asset_concentration_hhi (-3) 3 (by norm_num)
  have c7 := npClip_le s.gas_optimization_score (-3) 3
  have c8 := npClip_le s.transaction_complexity_score (-3) 3
  have c9 := npClip_le s.total_volume (-3) 3
  have c10 := npClip_le s.tenure_days (-3) 3
  have c11 := npClip_le s.total_transactions (-3) 3
  have c12 := le_npClip s.leverage_ratio (-3) 3 (by norm_num)
  have c13 := le_npClip s.position_size_variance (-3) 3 (by norm_num)
  have c14 := le_npClip s.bot_like_regularity (-3) 3 (by norm_num)
  linarith

/-- C10: the absolute values of the fourteen feature weights sum to exactly
1, and for every wallet and every population the base score is at most 940:
the weighted part deviates from 500 by at most 300 and the heuristic
bonuses add at most 140.  In particular a base score above 800 always lies
in (800, 940]. -/
theorem baseScore_upper_bound :
    (|featureWeights.repay_consistency_score| + |featureWeights.liquidation_frequency|
      + |featureWeights.activity_consistency_cv| + |featureWeights.has_liquidations|
      + |featureWeights.action_diversity_score| + |featureWeights.asset_concentration_hhi|
      + |featureWeights.gas_optimization_score| + |featureWeights.transaction_complexity_score|
      + |featureWeights.total_volume| + |featureWeights.tenure_days|
      + |featureWeights.total_transactions| + |featureWeights.leverage_ratio|
      + |featureWeights.position_size_variance| + |featureWeights.bot_like_regularity| = 1)
  ∧ (∀ (scaled : ScaledFeatures) (raw : RawFeatures),
      calculateWeightedScore scaled raw ≤ 940) := by
  constructor
  · have hpos : ∀ q : ℚ, 0 ≤ q → |q| = q := fun q h => abs_of_nonneg h
    have hneg : ∀ q : ℚ, q ≤ 0 → |q| = -q := fun q h => abs_of_nonpos h
    rw [show featureWeights.repay_consistency_score = 15/100 from rfl,
      show featureWeights.liquidation_frequency = -10/100 from rfl,
      show featureWeights.activity_consistency_cv = -5/100 from rfl,
      show featureWeights.has_liquidations = -10/100 from rfl,
      show featureWeights.action_diversity_score = 8/100 from rfl,
      show featureWeights.asset_concentration_hhi = -5/100 from rfl,
      show featureWeights.gas_optimization_score = 7/100 from rfl,
      show featureWeights.transaction_complexity_score = 5/100 from rfl,
      show featureWeights.total_volume = 8/100 from rfl,
      show featureWeights.tenure_days = 7/100 from rfl,
      show featureWeights.total_transactions = 5/100 from rfl,
      show featureWeights.leverage_ratio = -5/100 from rfl,
      show featureWeights.position_size_variance = -5/100 from rfl,
      show featureWeights.bot_like_regularity = -5/100 from rfl,
      hpos _ (by norm_num : (0:ℚ) ≤ 15/100), hneg _ (by norm_num : (-10/100 : ℚ) ≤ 0),
      hneg _ (by norm_num : (-5/100 : ℚ) ≤ 0), hpos _ (by norm_num : (0:ℚ) ≤ 8/100),
      hpos _ (by norm_num : (0:ℚ) ≤ 7/100), hpos _ (by norm_num : (0:ℚ) ≤ 5/100)]
    norm_num
  · intro scaled raw
    have hw := weightedSum_le scaled
    have hb := bonus_le raw
    unfold calculateWeightedScore
    linarith

/-- Folding min over a list of copies of a value returns the value. -/
theorem foldl_min_all_eq : ∀ (t : List ℚ) (a : ℚ), (∀ x ∈ t, x = a) → t.foldl min a = a := by
  intro t
  induction t with
  | nil => intro a _; rfl
  | cons b t ih =>
    intro a h
    simp only [List.foldl_cons]
    rw [h b (by simp), min_self]
    exact ih a (fun x hx => h x (by simp [hx]))

/-- Folding max over a list of copies of a value returns the value. -/
theorem foldl_max_all_eq : ∀ (t : List ℚ) (a : ℚ), (∀ x ∈ t, x = a) → t.foldl max a = a := by
  intro t
  induction t with
  | nil => intro a _; rfl
  | cons b t ih =>
    intro a h
    simp only [List.foldl_cons]
    rw [h b (by simp), max_self]
    exact ih a (fun x hx => h x (by simp [hx]))

/-- C3: the Score Normalizer assigns exactly 500 to every wallet before
overrides when the percentile-clipped scores are all identical; a wallet
with pre-normalization base score below 200 ends with a final credit score
of at most 300; a wallet with base score above 800 ends with at least
700. -/
theorem normalizer_spec (rows : List ScoreRow) :
    ((∀ x ∈ clippedScores rows, ∀ y ∈ clippedScores rows, x = y) →
        ∀ n ∈ normalizedPreOverride rows, n = 500)
  ∧ (∀ r ∈ normalizeScores rows, r.base_score < 200 → r.credit_score ≤ 300)
  ∧ (∀ r ∈ normalizeScores rows, r.base_score > 800 → 700 ≤ r.credit_score) := by
  refine ⟨fun hall n hn => ?_, fun r hr hb => ?_, fun r hr hb => ?_⟩
  · have hmap : normalizedPreOverride rows = (clippedScores rows).map (fun _ => 500) := by
      unfold normalizedPreOverride
      cases hc : clippedScores rows with
      | nil => simp [listMinD, listMaxD]
      | cons a t =>
        have ha : ∀ x ∈ (a :: t : List ℚ), x = a := fun x hx => by
          rw [← hc] at hx
          exact hall x hx a (by rw [hc]; simp)
        have h1 : listMinD (a :: t) = a := by
          unfold listMinD
          simp only [List.headD, List.foldl_cons, min_self]
          exact foldl_min_all_eq t a (fun x hx => ha x (by simp [hx]))
        have h2 : listMaxD (a :: t) = a := by
          unfold listMaxD
          simp only [List.headD, List.foldl_cons, max_self]
          exact foldl_max_all_eq t a (fun x hx => ha x (by simp [hx]))
        dsimp only
        rw [h1, h2, if_neg (lt_irrefl a)]
    rw [hmap] at hn
    obtain ⟨x, _, hx⟩ := List.mem_map.mp hn
    exact hx.symm
  · unfold normalizeScores at hr
    obtain ⟨p, _, rfl⟩ := List.mem_map.mp hr
    dsimp only at hb ⊢
    rw [if_pos hb]
    exact max_le (by norm_num) ((min_le_right _ _).trans (min_le_right _ _))
  · unfold normalizeScores at hr
    obtain ⟨p, _, rfl⟩ := List.mem_map.mp hr
    dsimp only at hb ⊢
    rw [if_neg (by linarith : ¬ p.1.base_score < 200), if_pos hb]
    exact le_max_of_le_right (le_min (by norm_num) (le_max_right _ _))

/-- One-row population entering the normalizer, base 500, risk-adjusted
550. -/
def rowsOne : List ScoreRow := [⟨500, 550⟩]

/-- Two-row population with extreme base scores 100 and 900. -/
def rowsTwo : List ScoreRow := [⟨100, 100⟩, ⟨900, 900⟩]

/-- Evaluation: the clipped scores of the one-row population. -/
theorem clippedScores_rowsOne : clippedScores rowsOne = [550] := by
  norm_num [clippedScores, rowsOne, npPercentile, sortQ, insertQ, npClip, List.getD]

/-- Evaluation: the pre-override normalized scores of the one-row
population collapse to 500. -/
theorem preOverride_rowsOne : normalizedPreOverride rowsOne = [500] := by
  rw [normalizedPreOverride, clippedScores_rowsOne]
  norm_num [listMinD, listMaxD]

/-- Evaluation: the normalizer output on the two-row population, where the
percentile clip maps [100, 900] to [108, 892] and the rescaling sends the
rows to 0 and 1000. -/
theorem normalizeScores_rowsTwo : normalizeScores rowsTwo =
    [⟨100, 100, 0, "Very Poor (0-299)"⟩, ⟨900, 900, 1000, "Excellent (900-1000)"⟩] := by
  have hclip2 : clippedScores rowsTwo = [108, 892] := by
    norm_num [clippedScores, rowsTwo, npPercentile, sortQ, insertQ, npClip, List.getD,
      min_def, max_def]
  have hpre2 : normalizedPreOverride rowsTwo = [0, 1000] := by
    rw [normalizedPreOverride, hclip2]
    norm_num [listMinD, listMaxD, min_def, max_def]
  rw [normalizeScores, hpre2]
  norm_num [rowsTwo, categorizeScore, min_def, max_def]

/-- Witness for C3: the all-identical branch at the one-row population, and
the two overrides at the extreme two-row population. -/
theorem normalizer_spec_witness :
    ((500 : ℚ) ∈ normalizedPreOverride rowsOne ∧ (500 : ℚ) = 500)
  ∧ ((⟨100, 100, 0, "Very Poor (0-299)"⟩ : FinalRow) ∈ normalizeScores rowsTwo
      ∧ (⟨100, 100, 0, "Very Poor (0-299)"⟩ : FinalRow).base_score < 200
      ∧ (⟨100, 100, 0, "Very Poor (0-299)"⟩ : FinalRow).credit_score ≤ 300)
  ∧ ((⟨900, 900, 1000, "Excellent (900-1000)"⟩ : FinalRow) ∈ normalizeScores rowsTwo
      ∧ (⟨900, 900, 1000, "Excellent (900-1000)"⟩ : FinalRow).base_score > 800
      ∧ 700 ≤ (⟨900, 900, 1000, "Excellent (900-1000)"⟩ : FinalRow).credit_score) := by
  have hall : ∀ x ∈ clippedScores rowsOne, ∀ y ∈ clippedScores rowsOne, x = y := by
    rw [clippedScores_rowsOne]
    intro x hx y hy
    simp only [List.mem_singleton] at hx hy
    rw [hx, hy]
  have hm1 : (500 : ℚ) ∈ normalizedPreOverride rowsOne := by
    rw [preOverride_rowsOne]; simp
  have hm2 : (⟨100, 100, 0, "Very Poor (0-299)"⟩ : FinalRow) ∈ normalizeScores rowsTwo := by
    rw [normalizeScores_rowsTwo]; simp
  have hm3 : (⟨900, 900, 1000, "Excellent (900-1000)"⟩ : FinalRow)
      ∈ normalizeScores rowsTwo := by
    rw [normalizeScores_rowsTwo]; simp
  refine ⟨⟨hm1, (normalizer_spec rowsOne).1 hall 500 hm1⟩,
    ⟨hm2, by norm_num, (normalizer_spec rowsTwo).2.1 _ hm2 (by norm_num)⟩,
    ⟨hm3, by norm_num, (normalizer_spec rowsTwo).2.2 _ hm3 (by norm_num)⟩⟩

/-- Every row leaving the normalizer has its credit score clamped to
[0, 1000] by the final max/min pair. -/
theorem normalizeScores_credit_bounds {rows : List ScoreRow} {r : FinalRow}
    (hr : r ∈ normalizeScores rows) : 0 ≤ r.credit_score ∧ r.credit_score ≤ 1000 := by
  unfold normalizeScores at hr
  obtain ⟨p, _, rfl⟩ := List.mem_map.mp hr
  dsimp only
  exact ⟨le_max_left _ _, max_le (by norm_num) (min_le_left _ _)⟩

/-- C1: for every transaction table accepted by the pipeline (any fitted
scaler output, bot regularity, anomaly flags and cluster labels) and every
wallet scored from it, the final credit score lies in [0, 1000], however
extreme the features, base score or risk-adjusted score: the normalizer
clamps unconditionally. -/
theorem creditScore_in_range (scaled : ℕ → ScaledFeatures) (bot : ℕ → ℚ)
    (anomaly : ℕ → Bool) (cluster : ℕ → Fin 5) (df : List Tx) (r : FinalRow)
    (hr : r ∈ scoreWallets scaled bot anomaly cluster df) :
    0 ≤ r.credit_score ∧ r.credit_score ≤ 1000 := by
  unfold scoreWallets at hr
  dsimp only at hr
  split at hr
  · exact absurd hr (List.not_mem_nil r)
  · exact normalizeScores_credit_bounds hr

/-- Evaluation: grouping the single-deposit table yields the one wallet. -/
theorem walletGroups_dfDepositOnly : walletGroups dfDepositOnly = [("a", dfDepositOnly)] := by
  simp [walletGroups, dfDepositOnly, sortS, insertS, List.dedup]

/-- Evaluation: raw bonus features of the single-deposit wallet. -/
theorem rawFeatures_dfDepositOnly : rawFeaturesOf dfDepositOnly 0 = ⟨0, 1, 1, 0, 0, 0, 0⟩ := by
  simp [rawFeaturesOf, extractFinancialFeatures, extractTemporalFeatures,
    extractBasicFeatures, dfDepositOnly, actionTxs, actionCount, actionVolume,
    uniqueAssets, List.dedup, timestamps, listMinZ, listMaxZ, calculateAssetConcentration,
    assetSums, amounts]

/-- Evaluation: the base score of the single-deposit wallet under the
all-zero scaled vector is the 500 baseline. -/
theorem baseScore_dfDepositOnly :
    calculateWeightedScore zeroScaled ⟨0, 1, 1, 0, 0, 0, 0⟩ = 500 := by
  norm_num [calculateWeightedScore, weightedSum, applyHeuristicBonuses, featureWeights,
    zeroScaled, npClip, min_def, max_def]

/-- Evaluation: the single-deposit wallet has liquidation frequency 0. -/
theorem liqFreq_dfDepositOnly :
    (extractRiskFeatures dfDepositOnly).liquidation_frequency = 0 := by
  norm_num [extractRiskFeatures, dfDepositOnly, actionTxs]
  decide

/-- The five cluster labels in loop order. -/
theorem finRange_five : List.finRange 5 = [0, 1, 2, 3, 4] := rfl

/-- The one-wallet risk population for the C1 witness: base 500, not
anomalous, cluster 0, no liquidations. -/
def wsOne : List WalletRisk := [⟨500, false, 0, 0⟩]

/-- Evaluation: cluster 0 holds the one wallet with mean liquidation
frequency 0 below 0.01, so its score is multiplied by 1.1. -/
theorem clusterStep_zero : applyClusterAdjustment wsOne [500] 0 = [550] := by
  norm_num [applyClusterAdjustment, clusterMeanLiq, clusterMembers, wsOne]

/-- Evaluation: the other four clusters are empty and change nothing. -/
theorem clusterStep_other : ∀ c : Fin 5, c ≠ 0 →
    applyClusterAdjustment wsOne [550] c = [550] := by
  intro c hc
  have hmem : clusterMembers wsOne c = [] := by
    simp [clusterMembers, wsOne]
    exact fun h => absurd h.symm hc
  simp [applyClusterAdjustment, hmem]

/-- Evaluation: the risk adjustment of the one-wallet population. -/
theorem riskAdjust_wsOne : applyRiskAdjustments wsOne = [550] := by
  unfold applyRiskAdjustments
  rw [finRange_five]
  simp only [List.foldl_cons, List.foldl_nil]
  rw [show wsOne.map (fun w => if w.anomaly then w.base_score * (7/10) else w.base_score)
      = [500] by simp [wsOne]]
  rw [clusterStep_zero, clusterStep_other 1 (by decide), clusterStep_other 2 (by decide),
    clusterStep_other 3 (by decide), clusterStep_other 4 (by decide)]

/-- Evaluation: the normalizer output on the one-row population. -/
theorem normalizeScores_rowsOne : normalizeScores rowsOne =
    [⟨500, 550, 500, "Fair (500-699)"⟩] := by
  rw [normalizeScores, preOverride_rowsOne]
  norm_num [rowsOne, categorizeScore, min_def, max_def]

/-- Evaluation: the full pipeline on the single-deposit table reduces to
the normalizer on the one-row population. -/
theorem scoreWallets_dfDepositOnly : scoreWallets (fun _ => zeroScaled) (fun _ => 0)
    (fun _ => false) (fun _ => 0) dfDepositOnly = normalizeScores rowsOne := by
  unfold scoreWallets
  simp only [walletGroups_dfDepositOnly, List.isEmpty_cons, List.length_cons,
    List.length_nil, List.range_succ, List.range_zero, List.nil_append, List.append_nil,
    List.map_cons, List.map_nil, List.getD_cons_zero, if_false, Bool.false_eq_true]
  rw [rawFeatures_dfDepositOnly, baseScore_dfDepositOnly, liqFreq_dfDepositOnly]
  rw [show ([⟨500, (fun _ : ℕ => false) 0, (fun _ : ℕ => (0 : Fin 5)) 0, 0⟩]
      : List WalletRisk) = wsOne from rfl]
  rw [riskAdjust_wsOne]
  rfl

/-- Witness for C1: the single-deposit wallet scores 500, inside
[0, 1000]. -/
theorem creditScore_in_range_witness :
    ((⟨500, 550, 500, "Fair (500-699)"⟩ : FinalRow)
        ∈ scoreWallets (fun _ => zeroScaled) (fun _ => 0) (fun _ => false) (fun _ => 0)
            dfDepositOnly)
  ∧ (0 ≤ (⟨500, 550, 500, "Fair (500-699)"⟩ : FinalRow).credit_score
      ∧ (⟨500, 550, 500, "Fair (500-699)"⟩ : FinalRow).credit_score ≤ 1000) := by
  have hm : (⟨500, 550, 500, "Fair (500-699)"⟩ : FinalRow)
      ∈ scoreWallets (fun _ => zeroScaled) (fun _ => 0) (fun _ => false) (fun _ => 0)
          dfDepositOnly := by
    rw [scoreWallets_dfDepositOnly, normalizeScores_rowsOne]
    simp
  exact ⟨hm, creditScore_in_range _ _ _ _ _ _ hm⟩

/-- One cluster pass leaves the score list length unchanged. -/
theorem applyClusterAdjustment_length (ws : List WalletRisk) (scores : List ℚ) (c : Fin 5)
    (hlen : scores.length = ws.length) :
    (applyClusterAdjustment ws scores c).length = ws.length := by
  unfold applyClusterAdjustment
  dsimp only
  split_ifs <;> simp [List.length_map, List.length_zip, hlen]

/-- Pointwise effect of one cluster pass: the score of wallet i is
multiplied by the cluster factor when i belongs to the adjusted cluster and
left alone otherwise. -/
theorem applyClusterAdjustment_getD (ws : List WalletRisk) (scores : List ℚ) (c : Fin 5)
    (i : ℕ) (hi : i < ws.length) (hlen : scores.length = ws.length) :
    (applyClusterAdjustment ws scores c).getD i 0 =
      (scores.getD i 0) * (if ws[i].cluster = c then clusterFactor ws c else 1) := by
  have hip : i < (ws.zip scores).length := by
    rw [List.length_zip, hlen, min_self]
    exact hi
  have his : i < scores.length := by rw [hlen]; exact hi
  unfold applyClusterAdjustment
  dsimp only
  by_cases hm : 0 < (clusterMembers ws c).length
  · rw [if_pos hm]
    by_cases h1 : clusterMeanLiq ws c > 1/10
    · have hF : clusterFactor ws c = 8/10 := by
        unfold clusterFactor
        rw [if_pos h1]
      rw [if_pos h1, hF, List.getD_eq_getElem _ _ (by simpa using hip), List.getElem_map,
        List.getElem_zip, List.getD_eq_getElem _ _ his]
      by_cases hc : ws[i].cluster = c
      · simp [hc]
      · simp [hc]
    · rw [if_neg h1]
      by_cases h2 : clusterMeanLiq ws c < 1/100
      · have hF : clusterFactor ws c = 11/10 := by
          unfold clusterFactor
          rw [if_neg h1, if_pos h2]
        rw [if_pos h2, hF, List.getD_eq_getElem _ _ (by simpa using hip), List.getElem_map,
          List.getElem_zip, List.getD_eq_getElem _ _ his]
        by_cases hc : ws[i].cluster = c
        · simp [hc]
        · simp [hc]
      · have hF : clusterFactor ws c = 1 := by
          unfold clusterFactor
          rw [if_neg h1, if_neg h2]
        rw [if_neg h2, hF]
        simp
  · rw [if_neg hm]
    have hnotc : ¬ ws[i].cluster = c := by
      intro hcl
      have hmem : ws[i] ∈ clusterMembers ws c :=
        List.mem_filter.mpr ⟨List.getElem_mem hi, by simp [hcl]⟩
      exact hm (List.length_pos.mpr (List.ne_nil_of_mem hmem))
    rw [if_neg hnotc, mul_one]

/-- C4: the risk-adjusted score of every wallet equals base score times a
times c, where a is 0.7 for wallets flagged anomalous (else 1) and c is the
cluster multiplier 0.8 / 1.1 / 1 determined by the mean liquidation
frequency of the wallet cluster; the two multipliers compose
multiplicatively and independently. -/
theorem riskAdjustment_formula (ws : List WalletRisk) (i : ℕ) (hi : i < ws.length) :
    (applyRiskAdjustments ws).getD i 0 =
      ws[i].base_score * (if ws[i].anomaly then (7:ℚ)/10 else 1)
        * clusterFactor ws ws[i].cluster := by
  unfold applyRiskAdjustments
  rw [finRange_five]
  simp only [List.foldl_cons, List.foldl_nil]
  set s0 := ws.map (fun w => if w.anomaly then w.base_score * (7/10) else w.base_score)
    with hs0
  have hl0 : s0.length = ws.length := by rw [hs0, List.length_map]
  have hl1 : (applyClusterAdjustment ws s0 0).length = ws.length :=
    applyClusterAdjustment_length ws s0 0 hl0
  have hl2 : (applyClusterAdjustment ws (applyClusterAdjustment ws s0 0) 1).length
      = ws.length := applyClusterAdjustment_length ws _ 1 hl1
  have hl3 : (applyClusterAdjustment ws
      (applyClusterAdjustment ws (applyClusterAdjustment ws s0 0) 1) 2).length
      = ws.length := applyClusterAdjustment_length ws _ 2 hl2
  have hl4 : (applyClusterAdjustment ws (applyClusterAdjustment ws
      (applyClusterAdjustment ws (applyClusterAdjustment ws s0 0) 1) 2) 3).length
      = ws.length := applyClusterAdjustment_length ws _ 3 hl3
  rw [applyClusterAdjustment_getD ws _ 4 i hi hl4,
    applyClusterAdjustment_getD ws _ 3 i hi hl3,
    applyClusterAdjustment_getD ws _ 2 i hi hl2,
    applyClusterAdjustment_getD ws _ 1 i hi hl1,
    applyClusterAdjustment_getD ws _ 0 i hi hl0,
    List.getD_eq_getElem _ _ (show i < s0.length by rw [hl0]; exact hi)]
  simp only [hs0, List.getElem_map]
  have hone : (if ws[i].cluster = 0 then clusterFactor ws 0 else 1)
      * (if ws[i].cluster = 1 then clusterFactor ws 1 else 1)
      * (if ws[i].cluster = 2 then clusterFactor ws 2 else 1)
      * (if ws[i].cluster = 3 then clusterFactor ws 3 else 1)
      * (if ws[i].cluster = 4 then clusterFactor ws 4 else 1)
      = clusterFactor ws (ws[i].cluster) := by
    set cl := ws[i].cluster with hcl
    clear_value cl
    fin_cases cl <;> simp
  have hcollect : ∀ x : ℚ,
      x * (if ws[i].cluster = 0 then clusterFactor ws 0 else 1)
        * (if ws[i].cluster = 1 then clusterFactor ws 1 else 1)
        * (if ws[i].cluster = 2 then clusterFactor ws 2 else 1)
        * (if ws[i].cluster = 3 then clusterFactor ws 3 else 1)
        * (if ws[i].cluster = 4 then clusterFactor ws 4 else 1)
      = x * clusterFactor ws (ws[i].cluster) := by
    intro x
    calc x * (if ws[i].cluster = 0 then clusterFactor ws 0 else 1)
        * (if ws[i].cluster = 1 then clusterFactor ws 1 else 1)
        * (if ws[i].cluster = 2 then clusterFactor ws 2 else 1)
        * (if ws[i].cluster = 3 then clusterFactor ws 3 else 1)
        * (if ws[i].cluster = 4 then clusterFactor ws 4 else 1)
        = x * ((if ws[i].cluster = 0 then clusterFactor ws 0 else 1)
          * (if ws[i].cluster = 1 then clusterFactor ws 1 else 1)
          * (if ws[i].cluster = 2 then clusterFactor ws 2 else 1)
          * (if ws[i].cluster = 3 then clusterFactor ws 3 else 1)
          * (if ws[i].cluster = 4 then clusterFactor ws 4 else 1)) := by ring
      _ = x * clusterFactor ws (ws[i].cluster) := by rw [hone]
  rw [hcollect]
  cases hA : ws[i].anomaly <;> simp [hA]

/-- Two-wallet risk population for the C4 witness: the first wallet is
anomalous and sits alone in cluster 0 whose mean liquidation frequency 0.2
exceeds 0.1, so it receives both multipliers, 500 times 0.7 times 0.8. -/
def wsTwo : List WalletRisk := [⟨500, true, 0, 2/10⟩, ⟨500, false, 1, 0⟩]

/-- Witness for C4: the doubly-adjusted wallet lands at 500 times 0.56,
that is 280. -/
theorem riskAdjustment_formula_witness :
    0 < wsTwo.length ∧ (applyRiskAdjustments wsTwo).getD 0 0 = 280 := by
  constructor
  · norm_num [wsTwo]
  · rw [riskAdjustment_formula wsTwo 0 (by norm_num [wsTwo])]
    norm_num [wsTwo, clusterFactor, clusterMeanLiq, clusterMembers,
      List.getElem_cons_zero]

end DeFiScoring
